import Mathlib

/-!
Shallow embedding of `src/crates/base/src/edge_runtime.rs` (supabase
edge-runtime): the `EdgeRuntime` execution context, its construction
(`EdgeRuntime::new`), its run entry point (`EdgeRuntime::run`), the
heap-pressure callback registered with `add_near_heap_limit_callback`,
and the resource-controller thread (`EdgeRuntime::start_controller_thread`).

External collaborators (the filesystem, `import_map::parse_from_json`,
URL manipulation, the module loader, the v8 engine) are abstracted as
explicit parameters; channel sends and log calls are recorded as events
in returned traces so that signal discipline can be stated and proved.
-/

/-- Modelled from the spec: `mib_to_bytes` lives in `crate::utils::units`,
which is not under `src/`.  The spec configures the memory cap as
`memory_limit_mb` (MiB) and speaks of the cap "in bytes", so the
conversion multiplies by 2^20.  The value is a Rust `u64`, hence the
reduction modulo 2^64 (release-mode wrapping). -/
def mib_to_bytes (m : Nat) : Nat := m * 1048576 % 18446744073709551616

/-- Result of one invocation of the closure passed to
`add_near_heap_limit_callback` (edge_runtime.rs lines 209-221).
`logged_cur` is the byte count put in the debug log; `sent` is the value
pushed onto the unbounded memory-pressure channel (`none` when the
receiver is already gone and the `let _ =` discards the send error);
`new_limit` is the value returned to v8 as the new soft heap limit. -/
structure HeapCallbackResult where
  logged_cur : Nat
  sent : Option Nat
  new_limit : Nat
deriving DecidableEq, Repr

/-- The closure registered with `add_near_heap_limit_callback` for
user-tier runtimes.  It logs `cur`, best-effort sends
`mib_to_bytes(memory_limit_mb)` on the pressure channel, and returns
`mib_to_bytes(memory_limit_mb + memory_limit_mb.div_euclid(4))` — the
25% allowance is computed on the cap expressed in MiB (u64 arithmetic,
wrapping), then converted to bytes. -/
def near_heap_limit_callback (memory_limit_mb : Nat) (channel_open : Bool)
    (cur _init : Nat) : HeapCallbackResult :=
  { logged_cur := cur
    sent := if channel_open then some (mib_to_bytes memory_limit_mb) else none
    new_limit :=
      mib_to_bytes ((memory_limit_mb + memory_limit_mb / 4) % 18446744073709551616) }

/-- Events produced by the controller thread spawned in
`start_controller_thread` (edge_runtime.rs lines 263-294). -/
inductive CtlEvent where
  | logTimeout (ms : Nat)
  | logMemory (bytes : Nat)
  | terminateExecution
  | haltSendOk
  | logHaltSendFailed
deriving DecidableEq, Repr

/-- Which branch of the controller `tokio::select!` wins.  The sleep
branch is always armed with duration `worker_timeout_ms` (the source has
no guard on zero); the memory branch is armed whenever the channel
yields `Some(val)`, modelled by `memArrival = some (t, val)` meaning a
notification with value `val` becomes ready at time `t`.  The memory
branch wins when it is ready strictly before the timer, or at the same
instant when the select's random tie-break (`tieMemory`) picks it.
Returns `some val` when the memory branch wins, `none` when the timer
branch wins. -/
def memWins (tieMemory : Bool) (worker_timeout_ms : Nat)
    (memArrival : Option (Nat × Nat)) : Option Nat :=
  match memArrival with
  | none => none
  | some (t, v) =>
    if t < worker_timeout_ms ∨ (t = worker_timeout_ms ∧ tieMemory = true) then some v
    else none

/-- After the select, the controller sends on the oneshot halt channel;
on failure (receiver dropped because the run finished first) it logs. -/
def haltTail (haltReceiverAlive : Bool) : List CtlEvent :=
  if haltReceiverAlive then [.haltSendOk] else [.logHaltSendFailed]

/-- Trace of the controller thread body: the memory branch logs the
received byte count and calls `terminate_execution()` on the isolate
handle; the timer branch only logs the elapsed duration; either branch
then performs the single halt send. -/
def start_controller_thread (tieMemory : Bool) (worker_timeout_ms : Nat)
    (memArrival : Option (Nat × Nat)) (haltReceiverAlive : Bool) : List CtlEvent :=
  match memWins tieMemory worker_timeout_ms memArrival with
  | some v => [.logMemory v, .terminateExecution] ++ haltTail haltReceiverAlive
  | none => [.logTimeout worker_timeout_ms] ++ haltTail haltReceiverAlive

/-- Event `a` occurs at some position of `tr` and `b` occurs strictly
after it. -/
def precedes (a b : CtlEvent) (tr : List CtlEvent) : Prop :=
  ∃ l₁ l₂, tr = l₁ ++ a :: l₂ ∧ b ∈ l₂

/-- `EdgeUserRuntimeOpts` from `sb_worker_context::essentials` (fields
used by this file: the memory cap in MiB and the worker timeout in
milliseconds, both `u64`). -/
structure EdgeUserRuntimeOpts where
  memory_limit_mb : Nat
  worker_timeout_ms : Nat
deriving DecidableEq, Repr

/-- Modelled from the spec: `EdgeUserRuntimeOpts::default()` lives in
`sb_worker_context`, not under `src/`.  It is used only to fill
`curr_user_opts` for main-tier contexts, which never consult the caps;
zero matches the spec's "zero/absent" phrasing for an unset timeout. -/
def EdgeUserRuntimeOpts.default : EdgeUserRuntimeOpts :=
  { memory_limit_mb := 0, worker_timeout_ms := 0 }

/-- `MainWorker` configuration: carries the pool-dispatch sender
(`worker_pool_tx`), abstracted here as an opaque handle id. -/
structure MainWorkerOpts where
  worker_pool_tx : Nat
deriving DecidableEq, Repr

/-- `EdgeContextOpts`: the tagged tier configuration. -/
inductive EdgeContextOpts where
  | UserWorker (conf : EdgeUserRuntimeOpts)
  | MainWorker (conf : MainWorkerOpts)
deriving DecidableEq, Repr

/-- `EdgeContextInitOpts`: input of `EdgeRuntime::new`. -/
structure EdgeContextInitOpts where
  service_path : String
  no_module_cache : Bool
  import_map_path : Option String
  env_vars : List (String × String)
  conf : EdgeContextOpts
deriving DecidableEq, Repr

/-- The v8 `CreateParams::heap_limits(initial, max)` pair. -/
structure CreateParams where
  initial_heap : Nat
  max_heap : Nat
deriving DecidableEq, Repr

/-- The slice of `deno_core::JsRuntime` state this file reasons about:
the heap-limit create params (`none` when no ceiling is imposed), and
the always-set module loader / is_main flags. -/
structure JsRuntime where
  create_params : Option CreateParams
  has_module_loader : Bool
  is_main : Bool
deriving DecidableEq, Repr

/-- The `EdgeRuntime` struct (edge_runtime.rs lines 67-74). -/
structure EdgeRuntime where
  js_runtime : JsRuntime
  main_module_url : String
  is_user_runtime : Bool
  env_vars : List (String × String)
  conf : EdgeContextOpts
  curr_user_opts : EdgeUserRuntimeOpts
deriving DecidableEq, Repr

/-- Result of `import_map::parse_from_json`: the parsed map (opaque
handle) and the non-fatal diagnostics. -/
structure ImportMapParseResult where
  import_map : Nat
  diagnostics : List String
deriving DecidableEq, Repr

/-- Log events emitted during construction. -/
inductive LogEvent where
  | warnDiagnostics (ds : List String)
deriving DecidableEq, Repr

/-- External collaborators of `EdgeRuntime::new`, abstracted as
functions: filesystem reads, the current directory, path joining,
`Url::from_directory_path(..).unwrap()` on a parent directory
(`dir_url`, total — its unwrap panics are outside the claims), URL
joining, the import-map parser, and `DefaultModuleLoader::new`. -/
structure SysEnv where
  read_to_string : String → Except String String
  current_dir : Except String String
  path_join : String → String → String
  dir_url : String → String
  url_join : String → String → Except String String
  parse_from_json : String → String → Except String ImportMapParseResult
  module_loader_new : Option Nat → Bool → Except String Unit

/-- `load_import_map` (edge_runtime.rs lines 39-52) together with
`print_import_map_diagnostics` (lines 54-65): `none` yields `Ok(None)`;
a path is read (`?`), the base URL is built from the current directory
(`?`), the JSON is parsed (`?`), diagnostics are logged as a warning
when present, and the map is returned.  The second component is the log
trace. -/
def load_import_map (env : SysEnv) (maybe_path : Option String) :
    Except String (Option Nat) × List LogEvent :=
  match maybe_path with
  | none => (.ok none, [])
  | some path_str =>
    match env.read_to_string path_str with
    | .error e => (.error e, [])
    | .ok json_str =>
      match env.current_dir with
      | .error e => (.error e, [])
      | .ok cwd =>
        let abs_path := env.path_join cwd path_str
        let base_url := env.dir_url abs_path
        match env.parse_from_json base_url json_str with
        | .error e => (.error e, [])
        | .ok result =>
          (.ok (some result.import_map),
            if result.diagnostics.isEmpty then []
            else [.warnDiagnostics result.diagnostics])

/-- Fixed default entry filename joined onto the service root. -/
def indexTs : String := "index.ts"

/-- `EdgeRuntime::new` (edge_runtime.rs lines 77-161): selects the tier,
resolves the entry-module URL from the current directory and the service
path (`?` on both fallible steps), loads the optional import map (`?`),
builds the module loader (`?`), and constructs the `JsRuntime` — with
`heap_limits(mib_to_bytes(1), mib_to_bytes(memory_limit_mb))` when
user-tier and no create params (no ceiling) when main-tier. -/
def EdgeRuntime.new (env : SysEnv) (opts : EdgeContextInitOpts) :
    Except String EdgeRuntime :=
  let tier : Bool × EdgeUserRuntimeOpts :=
    match opts.conf with
    | .UserWorker c => (true, c)
    | .MainWorker _ => (false, EdgeUserRuntimeOpts.default)
  match env.current_dir with
  | .error e => .error e
  | .ok cwd =>
    let base_url := env.dir_url (env.path_join cwd opts.service_path)
    match env.url_join base_url indexTs with
    | .error e => .error e
    | .ok main_module_url =>
      match (load_import_map env opts.import_map_path).1 with
      | .error e => .error e
      | .ok import_map =>
        match env.module_loader_new import_map opts.no_module_cache with
        | .error e => .error e
        | .ok _ =>
          .ok
            { js_runtime :=
                { create_params :=
                    if tier.1 then
                      some { initial_heap := mib_to_bytes 1
                             max_heap := mib_to_bytes tier.2.memory_limit_mb }
                    else none
                  has_module_loader := true
                  is_main := true }
              main_module_url := main_module_url
              is_user_runtime := tier.1
              env_vars := opts.env_vars
              conf := opts.conf
              curr_user_opts := tier.2 }

/-- The context-local `OpState` entries installed by `run`
(edge_runtime.rs lines 188-200) before execution: the unix-stream
receiver, the environment table, and — only inside the
`!is_user_rt` / `MainWorker` branch — the pool-dispatch sender.  A key
that was never `put` reads as absent (`none`/`false`). -/
structure OpState where
  has_unix_stream_rx : Bool
  env_vars : List (String × String)
  pool_dispatch_tx : Option Nat
deriving DecidableEq, Repr

/-- The op-state installation block of `run`: puts the stream receiver
and the env table unconditionally; puts `conf.worker_pool_tx` only when
`is_user_rt` is false and the configuration is `MainWorker`. -/
def installOpState (is_user_rt : Bool) (conf : EdgeContextOpts)
    (env_vars : List (String × String)) : OpState :=
  { has_unix_stream_rx := true
    env_vars := env_vars
    pool_dispatch_tx :=
      if is_user_rt then none
      else
        match conf with
        | .MainWorker c => some c.worker_pool_tx
        | .UserWorker _ => none }

/-- Decidable equality for `Except`, needed to evaluate run traces. -/
instance {ε α : Type} [DecidableEq ε] [DecidableEq α] :
    DecidableEq (Except ε α) := fun a b =>
  match a, b with
  | .ok x, .ok y =>
    if h : x = y then .isTrue (by rw [h]) else .isFalse (by simp [h])
  | .error x, .error y =>
    if h : x = y then .isTrue (by rw [h]) else .isFalse (by simp [h])
  | .ok _, .error _ => .isFalse (by simp)
  | .error _, .ok _ => .isFalse (by simp)

/-- How the inner `future` of `run` (edge_runtime.rs lines 232-251)
resolves: `load_main_module` fails (`?`), or the event loop completes
and `mod_result.await` yields a module result, or the halt-signal
receiver wins the `tokio::select!` (the outcome is then `Ok(())`). -/
inductive FutureOutcome where
  | loadError (e : String)
  | evalCompleted (modResult : Except String Unit)
  | halted
deriving DecidableEq, Repr

/-- Value of `res = future.await` in `run`. -/
def futureResult : FutureOutcome → Except String Unit
  | .loadError e => .error e
  | .evalCompleted r => r
  | .halted => .ok ()

/-- Environment of one call to `run`: whether the bootstrap script
succeeds, whether the unix-stream send succeeds, how the driven future
resolves, and whether the completion (`shutdown_tx`) receiver is still
alive when `run` sends on it. -/
structure RunEnv where
  bootstrapOk : Bool
  streamSendOk : Bool
  outcome : FutureOutcome
  completionReceiverAlive : Bool
deriving DecidableEq, Repr

/-- Panic message of the `.expect` on the bootstrap script. -/
def bootstrapPanicMsg : String := "Failed to execute bootstrap script"

/-- Panic message of the `.unwrap()` on `shutdown_tx.send(())`. -/
def unwrapPanicMsg : String := "called Result::unwrap on an Err value"

/-- How `run` concludes: a normal `Ok(())` return, an early `bail!`
error return, or a panic (the function unwinds without returning). -/
inductive RunResult where
  | ok
  | earlyErr (e : String)
  | panicked (msg : String)
deriving DecidableEq, Repr

/-- Observable events of one call to `run`, in program order. -/
inductive RunEvent where
  | bootstrapped
  | installState (s : OpState)
  | registerHeapCallback (memory_limit_mb : Nat)
  | spawnController (worker_timeout_ms : Nat)
  | logWorkerError (e : String)
  | completionSent
deriving DecidableEq, Repr

/-- `EdgeRuntime::run` (edge_runtime.rs lines 163-261).  Order of the
source: execute the bootstrap script (`.expect` panics on failure), send
the stream on the unbounded channel (`bail!` on failure), install the
op-state entries, then — user-tier only — register the heap-pressure
callback and spawn the controller; drive the future; log
`worker thread panicked` when it erred; finally
`shutdown_tx.send(()).unwrap()` (panics when the receiver is gone) and
return `Ok(())`. -/
def EdgeRuntime.run (rt : EdgeRuntime) (env : RunEnv) :
    RunResult × List RunEvent :=
  if env.bootstrapOk = false then
    (.panicked bootstrapPanicMsg, [])
  else if env.streamSendOk = false then
    (.earlyErr "channel closed", [.bootstrapped])
  else
    let s := installOpState rt.is_user_runtime rt.conf rt.env_vars
    let userEvents : List RunEvent :=
      if rt.is_user_runtime then
        [.registerHeapCallback rt.curr_user_opts.memory_limit_mb,
          .spawnController rt.curr_user_opts.worker_timeout_ms]
      else []
    let logEvents : List RunEvent :=
      match futureResult env.outcome with
      | .error e => [.logWorkerError e]
      | .ok _ => []
    let events := [.bootstrapped, .installState s] ++ userEvents ++ logEvents
    if env.completionReceiverAlive then
      (.ok, events ++ [.completionSent])
    else
      (.panicked unwrapPanicMsg, events)

/-! Concrete fixtures used by witnesses and counterexamples. -/

/-- A user-tier configuration: 10 MiB cap, 1000 ms timeout. -/
def userOpts10 : EdgeUserRuntimeOpts :=
  { memory_limit_mb := 10, worker_timeout_ms := 1000 }

/-- A main-tier configuration with pool-dispatch sender handle 7. -/
def mainOpts7 : MainWorkerOpts := { worker_pool_tx := 7 }

/-- String fixtures (bound through defs so literals never follow a name). -/
def emptyStr : String := ""

/-- Service-root directory for fixtures. -/
def srvDir : String := "/srv"

/-- Service path for fixtures. -/
def svcPath : String := "svc"

/-- Import-map path for fixtures. -/
def imJson : String := "im.json"

/-- A filesystem read error. -/
def noSuchFile : String := "No such file"

/-- A non-fatal import-map diagnostic. -/
def badEntry : String := "bad entry"

/-- A collaborator environment in which every step succeeds. -/
def sysEnvOk : SysEnv :=
  { read_to_string := fun _ => .ok emptyStr
    current_dir := .ok srvDir
    path_join := fun _ b => b
    dir_url := fun p => p
    url_join := fun _ r => .ok r
    parse_from_json := fun _ _ => .ok { import_map := 0, diagnostics := [] }
    module_loader_new := fun _ _ => .ok () }

/-- Like `sysEnvOk` but every filesystem read fails. -/
def sysEnvNoFile : SysEnv :=
  { sysEnvOk with read_to_string := fun _ => .error noSuchFile }

/-- Like `sysEnvOk` but parsing yields one non-fatal diagnostic. -/
def sysEnvDiag : SysEnv :=
  { sysEnvOk with
      parse_from_json := fun _ _ => .ok { import_map := 3, diagnostics := [badEntry] } }

/-- User-tier construction options, no import map. -/
def optsUser : EdgeContextInitOpts :=
  { service_path := svcPath, no_module_cache := false, import_map_path := none
    env_vars := [], conf := .UserWorker userOpts10 }

/-- Main-tier construction options. -/
def optsMain : EdgeContextInitOpts := { optsUser with conf := .MainWorker mainOpts7 }

/-- User-tier construction options with an import-map path. -/
def optsWithMap : EdgeContextInitOpts := { optsUser with import_map_path := some imJson }

/-- The runtime `EdgeRuntime.new sysEnvOk optsUser` constructs. -/
def rtUser : EdgeRuntime :=
  { js_runtime :=
      { create_params := some { initial_heap := mib_to_bytes 1, max_heap := mib_to_bytes 10 }
        has_module_loader := true
        is_main := true }
    main_module_url := indexTs
    is_user_runtime := true
    env_vars := []
    conf := .UserWorker userOpts10
    curr_user_opts := userOpts10 }

/-- The runtime `EdgeRuntime.new sysEnvOk optsMain` constructs. -/
def rtMain : EdgeRuntime :=
  { rtUser with
      js_runtime := { create_params := none, has_module_loader := true, is_main := true }
      is_user_runtime := false
      conf := .MainWorker mainOpts7
      curr_user_opts := EdgeUserRuntimeOpts.default }

/-- A run environment on the halt path with everything healthy. -/
def envNormal : RunEnv :=
  { bootstrapOk := true, streamSendOk := true, outcome := .halted
    completionReceiverAlive := true }

/-- A run environment in which the bootstrap script fails. -/
def envBootFail : RunEnv := { envNormal with bootstrapOk := false }

/-- A run environment in which the module completes normally but the
completion receiver has already been dropped. -/
def envNoReceiver : RunEnv :=
  { envNormal with outcome := .evalCompleted (.ok ())
                   completionReceiverAlive := false }

/-! Claims about the heap-pressure callback and the controller. -/

/-- C4 counterexample: with a 5 MiB cap the callback returns
6 MiB = 6291456 bytes, while the cap plus 25% of the cap in bytes,
rounded down (the floor of 1.25 times the cap) is 6553600 bytes. -/
theorem heap_target_differs_from_byte_floor :
    (near_heap_limit_callback 5 true 0 1048576).new_limit = 6291456
    ∧ 5 * mib_to_bytes 5 / 4 = 6553600
    ∧ mib_to_bytes 5 + mib_to_bytes 5 / 4 = 6553600
    ∧ (near_heap_limit_callback 5 true 0 1048576).new_limit ≠ 5 * mib_to_bytes 5 / 4 := by
  decide

/-- C4 (amended): for caps below 2^43 MiB (no u64 wrap), the returned
soft target is the cap plus a 25% allowance computed on the cap in whole
MiB and rounded down to a whole MiB — `mib_to_bytes m + mib_to_bytes (m / 4)`
for a cap of `m` MiB; exactly when `m` is divisible by 4 this coincides
with the cap plus a quarter of the cap in bytes. -/
theorem heap_target_mib_granularity (m cur i : Nat) (o : Bool) (h : m ≤ 2 ^ 43) :
    (near_heap_limit_callback m o cur i).new_limit
      = mib_to_bytes m + mib_to_bytes (m / 4)
    ∧ (m % 4 = 0 →
        (near_heap_limit_callback m o cur i).new_limit
          = mib_to_bytes m + mib_to_bytes m / 4) := by
  have hm : m ≤ 8796093022208 := by norm_num at h; exact h
  have e1 : (m + m / 4) % 18446744073709551616 = m + m / 4 :=
    Nat.mod_eq_of_lt (by omega)
  have e2 : (m + m / 4) * 1048576 % 18446744073709551616 = (m + m / 4) * 1048576 :=
    Nat.mod_eq_of_lt (by omega)
  have e3 : m * 1048576 % 18446744073709551616 = m * 1048576 :=
    Nat.mod_eq_of_lt (by omega)
  have e4 : m / 4 * 1048576 % 18446744073709551616 = m / 4 * 1048576 :=
    Nat.mod_eq_of_lt (by omega)
  constructor
  · simp only [near_heap_limit_callback, mib_to_bytes]
    rw [e1, e2, e3, e4]
    omega
  · intro h4
    simp only [near_heap_limit_callback, mib_to_bytes]
    rw [e1, e2, e3]
    omega

/-- Witness for `heap_target_mib_granularity` at a 5 MiB cap. -/
theorem heap_target_mib_granularity_witness :
    (near_heap_limit_callback 5 true 123 1048576).new_limit
      = mib_to_bytes 5 + mib_to_bytes (5 / 4) :=
  (heap_target_mib_granularity 5 123 1048576 true (by norm_num)).1

/-- C5 counterexample: invoked with a current usage of 42 bytes under a
10 MiB cap, the callback sends 10485760 (the configured cap in bytes) on
the pressure channel, not the 42 bytes currently used; the current usage
only reaches the debug log. -/
theorem pressure_notification_not_current_usage :
    (near_heap_limit_callback 10 true 42 1048576).sent = some 10485760
    ∧ (10485760 : Nat) ≠ 42
    ∧ (near_heap_limit_callback 10 true 42 1048576).logged_cur = 42 := by
  decide

/-- C5 (amended): every heap-pressure notification carries the
configured hard memory cap in bytes (`mib_to_bytes memory_limit_mb`),
independent of the usage the callback was invoked with; when the
receiver is gone the best-effort send is dropped. -/
theorem pressure_notification_carries_cap (m cur i : Nat) :
    (near_heap_limit_callback m true cur i).sent = some (mib_to_bytes m)
    ∧ (near_heap_limit_callback m false cur i).sent = none :=
  ⟨rfl, rfl⟩

/-- C10: the soft target returned by the heap-pressure callback is a
constant of the configured cap — two invocations with arbitrary,
distinct current-usage (and initial) arguments return the same value. -/
theorem heap_target_usage_independent (m cur₁ cur₂ i₁ i₂ : Nat) (o₁ o₂ : Bool) :
    (near_heap_limit_callback m o₁ cur₁ i₁).new_limit
      = (near_heap_limit_callback m o₂ cur₂ i₂).new_limit := rfl

/-- C3 counterexample: with a zero worker timeout and no memory
notification ever arriving, the controller's timer branch fires (it
sleeps zero milliseconds) and the halt signal is sent due to elapsed
time — the timer branch is not disabled. -/
theorem zero_timeout_timer_fires :
    start_controller_thread false 0 none true = [.logTimeout 0, .haltSendOk] := rfl

/-- C3 (amended): the controller's timer branch is always armed with
exactly `worker_timeout_ms` milliseconds — a zero timeout does not
disable it but makes it expire immediately; whenever no memory
notification wins the race the controller logs the timeout and fires
the halt signal, for every timeout value including zero. -/
theorem timer_branch_always_armed (tie : Bool) (T : Nat) (alive : Bool) :
    start_controller_thread tie T none alive = .logTimeout T :: haltTail alive := rfl

/-- C6: on every controller run the halt signal is sent at most once;
when the memory branch wins, the forced `terminate_execution` interrupt
is issued and precedes the halt send; when the timer branch wins, no
forced interrupt is ever issued. -/
theorem controller_halt_discipline (tie : Bool) (T : Nat)
    (mem : Option (Nat × Nat)) (alive : Bool) :
    ((start_controller_thread tie T mem alive).count .haltSendOk ≤ 1)
    ∧ (∀ v, memWins tie T mem = some v →
        .terminateExecution ∈ start_controller_thread tie T mem alive
        ∧ (alive = true →
            precedes .terminateExecution .haltSendOk
              (start_controller_thread tie T mem alive)))
    ∧ (memWins tie T mem = none →
        .terminateExecution ∉ start_controller_thread tie T mem alive) := by
  unfold start_controller_thread
  cases hm : memWins tie T mem with
  | some v =>
    refine ⟨?_, fun w hw => ?_, fun hn => by simp [hm] at hn⟩
    · cases alive <;> simp [haltTail, List.count_cons, List.count_nil]
    · injection hw with hvw
      subst hvw
      refine ⟨by simp, fun ha => ?_⟩
      subst ha
      exact ⟨[.logMemory v], [.haltSendOk], by simp [haltTail], by simp⟩
  | none =>
    refine ⟨?_, fun w hw => by simp [hm] at hw, fun _ => ?_⟩
    · cases alive <;> simp [haltTail, List.count_cons, List.count_nil]
    · cases alive <;> simp [haltTail]

/-- Witness for `controller_halt_discipline`: a memory notification at
time 3 under a 5 ms timeout wins; the forced interrupt precedes the halt
send and the halt is sent at most once. -/
theorem controller_halt_discipline_witness :
    precedes .terminateExecution .haltSendOk
      (start_controller_thread true 5 (some (3, 999)) true)
    ∧ (start_controller_thread true 5 (some (3, 999)) true).count .haltSendOk ≤ 1 := by
  have h := controller_halt_discipline true 5 (some (3, 999)) true
  exact ⟨(h.2.1 999 (by decide)).2 rfl, h.1⟩

/-! Claims about `EdgeRuntime::run` and `EdgeRuntime::new`. -/

/-- C1 counterexample: when the bootstrap script fails, `run` panics at
the `.expect` before ever reaching the completion-signal send — that
terminal path concludes with zero completion signals, not one. -/
theorem bootstrap_failure_no_completion_signal :
    (EdgeRuntime.run rtUser envBootFail).1 = .panicked bootstrapPanicMsg
    ∧ (EdgeRuntime.run rtUser envBootFail).2.count .completionSent = 0 := by
  decide

/-- C1 (amended): on the normal-completion and halt terminal paths
(bootstrap and stream setup succeeded) with the completion receiver
alive, `run` sends the completion signal exactly once and returns
success; on bootstrap-script failure the run panics without sending. -/
theorem completion_signal_fires_once (rt : EdgeRuntime) (env : RunEnv)
    (hb : env.bootstrapOk = true) (hs : env.streamSendOk = true)
    (ha : env.completionReceiverAlive = true) :
    (EdgeRuntime.run rt env).2.count .completionSent = 1
    ∧ (EdgeRuntime.run rt env).1 = .ok := by
  unfold EdgeRuntime.run
  rw [hb, hs, ha]
  cases hu : rt.is_user_runtime <;> cases ho : futureResult env.outcome <;>
    simp [hu, ho, List.count_append, List.count_cons, List.count_nil]

/-- Witness for `completion_signal_fires_once` on the halt path of the
fixture user runtime. -/
theorem completion_signal_fires_once_witness :
    (EdgeRuntime.run rtUser envNormal).2.count .completionSent = 1
    ∧ (EdgeRuntime.run rtUser envNormal).1 = .ok :=
  completion_signal_fires_once rtUser envNormal rfl rfl rfl

/-- C2 counterexample: when the completion receiver was already dropped,
the `.unwrap()` on `shutdown_tx.send(())` makes `run` panic — the failed
send is neither logged-and-ignored nor surfaced as an error return. -/
theorem completion_send_unwrap_panics :
    (EdgeRuntime.run rtUser envNoReceiver).1 = .panicked unwrapPanicMsg
    ∧ (EdgeRuntime.run rtUser envNoReceiver).2.count .completionSent = 0 := by
  decide

/-- C2 (amended): whenever the completion signal has actually been sent,
`run` returns success to its caller; a send on which nothing listens
instead panics at the `.unwrap()` (it is not logged at error level). -/
theorem run_ok_once_completion_sent (rt : EdgeRuntime) (env : RunEnv)
    (h : .completionSent ∈ (EdgeRuntime.run rt env).2) :
    (EdgeRuntime.run rt env).1 = .ok := by
  obtain ⟨b, sOk, o, c⟩ := env
  cases b
  · simp [EdgeRuntime.run] at h
  cases sOk
  · simp [EdgeRuntime.run] at h
  cases c
  · cases hu : rt.is_user_runtime <;> cases ho : futureResult o <;>
      simp [EdgeRuntime.run, hu, ho] at h
  · simp [EdgeRuntime.run]

/-- Witness for `run_ok_once_completion_sent` on the fixture run. -/
theorem run_ok_once_completion_sent_witness :
    (EdgeRuntime.run rtUser envNormal).1 = .ok :=
  run_ok_once_completion_sent rtUser envNormal (by decide)

/-- Any op-state snapshot recorded in a run trace is exactly the one the
installation block builds from the runtime's tier, configuration and
environment table. -/
theorem installState_mem_run (rt : EdgeRuntime) (env : RunEnv) (s : OpState)
    (h : .installState s ∈ (EdgeRuntime.run rt env).2) :
    s = installOpState rt.is_user_runtime rt.conf rt.env_vars := by
  obtain ⟨b, sOk, o, c⟩ := env
  cases b
  · simp [EdgeRuntime.run] at h
  cases sOk
  · simp [EdgeRuntime.run] at h
  cases hu : rt.is_user_runtime <;> cases ho : futureResult o <;> cases c <;>
    simp [EdgeRuntime.run, hu, ho] at h <;> simp [hu, h]

/-- C7: the context-local state installed by a user-tier run never
contains the pool-dispatch sender; a state carrying a sender can only
come from a main-tier run whose `MainWorker` configuration holds that
very sender. -/
theorem user_tier_no_pool_dispatch (rt : EdgeRuntime) (env : RunEnv) (s : OpState)
    (h : .installState s ∈ (EdgeRuntime.run rt env).2) :
    (rt.is_user_runtime = true → s.pool_dispatch_tx = none)
    ∧ (∀ x, s.pool_dispatch_tx = some x →
        rt.is_user_runtime = false
        ∧ ∃ c, rt.conf = .MainWorker c ∧ c.worker_pool_tx = x) := by
  have hmem := installState_mem_run rt env s h
  subst hmem
  constructor
  · intro hu
    simp [installOpState, hu]
  · intro x hx
    cases hu : rt.is_user_runtime
    · cases hc : rt.conf with
      | UserWorker cu => simp [installOpState, hu, hc] at hx
      | MainWorker cm =>
        simp [installOpState, hu, hc] at hx
        exact ⟨rfl, cm, rfl, hx⟩
    · simp [installOpState, hu] at hx

/-- Witness for `user_tier_no_pool_dispatch` on the fixture user run. -/
theorem user_tier_no_pool_dispatch_witness :
    (installOpState true (.UserWorker userOpts10) []).pool_dispatch_tx = none :=
  (user_tier_no_pool_dispatch rtUser envNormal
    (installOpState true (.UserWorker userOpts10) []) (by decide)).1 rfl

/-- A runtime whose tier flag is main never emits the user-only run
events: no heap-pressure callback registration, no controller spawn. -/
theorem main_tier_run_no_user_events (rt : EdgeRuntime)
    (hru : rt.is_user_runtime = false) (renv : RunEnv) (n : Nat) :
    .registerHeapCallback n ∉ (EdgeRuntime.run rt renv).2
    ∧ .spawnController n ∉ (EdgeRuntime.run rt renv).2 := by
  obtain ⟨b, sOk, o, c⟩ := renv
  cases b <;> cases sOk <;> cases c <;> cases ho : futureResult o <;>
    simp [EdgeRuntime.run, hru, ho]

/-- C8: a successful construction from a `UserWorker` configuration sets
v8 heap limits of 1 MiB initial and the configured cap (in bytes)
maximum; a successful construction from a `MainWorker` configuration
sets no heap ceiling, and every run of such a runtime registers no
heap-pressure callback and spawns no Resource Controller. -/
theorem tier_heap_limits_and_controller (env : SysEnv)
    (opts : EdgeContextInitOpts) (rt : EdgeRuntime)
    (h : EdgeRuntime.new env opts = .ok rt) :
    (∀ c, opts.conf = .UserWorker c →
        rt.js_runtime.create_params
          = some { initial_heap := mib_to_bytes 1
                   max_heap := mib_to_bytes c.memory_limit_mb })
    ∧ (∀ c, opts.conf = .MainWorker c →
        rt.js_runtime.create_params = none
        ∧ rt.is_user_runtime = false
        ∧ ∀ renv n, .registerHeapCallback n ∉ (EdgeRuntime.run rt renv).2
            ∧ .spawnController n ∉ (EdgeRuntime.run rt renv).2) := by
  obtain ⟨sp, nmc, imp, ev, conf⟩ := opts
  cases conf with
  | UserWorker c =>
    simp only [EdgeRuntime.new] at h
    split at h
    · exact Except.noConfusion h
    split at h
    · exact Except.noConfusion h
    split at h
    · exact Except.noConfusion h
    split at h
    · exact Except.noConfusion h
    injection h with h
    subst h
    refine ⟨fun c2 hc2 => ?_, fun c2 hc2 => by simp at hc2⟩
    injection hc2 with hc2
    subst hc2
    rfl
  | MainWorker c =>
    simp only [EdgeRuntime.new] at h
    split at h
    · exact Except.noConfusion h
    split at h
    · exact Except.noConfusion h
    split at h
    · exact Except.noConfusion h
    split at h
    · exact Except.noConfusion h
    injection h with h
    subst h
    refine ⟨fun c2 hc2 => by simp at hc2, fun c2 hc2 => ⟨rfl, rfl, ?_⟩⟩
    intro renv n
    exact main_tier_run_no_user_events _ rfl renv n

/-- Witness for `tier_heap_limits_and_controller` on the fixtures. -/
theorem tier_heap_limits_and_controller_witness :
    rtUser.js_runtime.create_params
      = some { initial_heap := mib_to_bytes 1, max_heap := mib_to_bytes 10 }
    ∧ rtMain.js_runtime.create_params = none
    ∧ .spawnController 0 ∉ (EdgeRuntime.run rtMain envNormal).2 := by
  have h1 := tier_heap_limits_and_controller sysEnvOk optsUser rtUser (by decide)
  have h2 := tier_heap_limits_and_controller sysEnvOk optsMain rtMain (by decide)
  exact ⟨h1.1 userOpts10 rfl, (h2.2 mainOpts7 rfl).1,
    ((h2.2 mainOpts7 rfl).2.2 envNormal 0).2⟩

/-- C9: an absent import-map path yields no import map and no error; a
failing filesystem read or a parse error is returned as the error of
`load_import_map` and propagates out of `EdgeRuntime.new`; a parse that
succeeds with diagnostics logs one warning and still succeeds. -/
theorem import_map_loading_behavior (env : SysEnv) (p e : String)
    (opts : EdgeContextInitOpts) :
    (load_import_map env none = (.ok none, []))
    ∧ (env.read_to_string p = .error e →
        load_import_map env (some p) = (.error e, []))
    ∧ (∀ cwd json_str, env.read_to_string p = .ok json_str →
        env.current_dir = .ok cwd →
        env.parse_from_json (env.dir_url (env.path_join cwd p)) json_str
          = .error e →
        load_import_map env (some p) = (.error e, []))
    ∧ (∀ cwd json_str r, env.read_to_string p = .ok json_str →
        env.current_dir = .ok cwd →
        env.parse_from_json (env.dir_url (env.path_join cwd p)) json_str
          = .ok r →
        r.diagnostics ≠ [] →
        load_import_map env (some p)
          = (.ok (some r.import_map), [.warnDiagnostics r.diagnostics]))
    ∧ ((load_import_map env opts.import_map_path).1 = .error e →
        ∀ cwd url, env.current_dir = .ok cwd →
        env.url_join (env.dir_url (env.path_join cwd opts.service_path)) indexTs
          = .ok url →
        EdgeRuntime.new env opts = .error e) := by
  refine ⟨rfl, fun hr => ?_, fun cwd js hr hc hp => ?_,
    fun cwd js r hr hc hp hd => ?_, fun hload cwd url hc hu => ?_⟩
  · simp [load_import_map, hr]
  · simp [load_import_map, hr, hc, hp]
  · simp [load_import_map, hr, hc, hp, hd]
  · simp [EdgeRuntime.new, hc, hu, hload]

/-- Witness for `import_map_loading_behavior` on the fixture
environments: no path, unreadable file (also through `new`), and a
non-fatal diagnostic. -/
theorem import_map_loading_behavior_witness :
    load_import_map sysEnvOk none = (.ok none, [])
    ∧ load_import_map sysEnvNoFile (some imJson) = (.error noSuchFile, [])
    ∧ load_import_map sysEnvDiag (some imJson)
        = (.ok (some 3), [.warnDiagnostics [badEntry]])
    ∧ EdgeRuntime.new sysEnvNoFile optsWithMap = .error noSuchFile := by
  have h1 := import_map_loading_behavior sysEnvOk imJson noSuchFile optsWithMap
  have h2 := import_map_loading_behavior sysEnvNoFile imJson noSuchFile optsWithMap
  have h3 := import_map_loading_behavior sysEnvDiag imJson noSuchFile optsWithMap
  refine ⟨h1.1, h2.2.1 rfl, ?_, ?_⟩
  · exact h3.2.2.2.1 srvDir emptyStr
      { import_map := 3, diagnostics := [badEntry] } rfl rfl rfl (by decide)
  · exact h2.2.2.2.2 rfl srvDir indexTs rfl rfl
